import Mathlib

/-!
Shallow embedding of the verso-spotify client's coordination logic.

The embedded code:
* `components/SpotifyPlayer.tsx` — the playback component: SDK listeners
  (`ready`, `not_ready`, `player_state_changed`, `authentication_error`),
  the guarded SDK initialization, the playlist-track fetch effect, and the
  playback controls (`playTrack`, `togglePlayPause`, `skipNext`,
  `skipPrevious`).
* `app/client-home-page.tsx` — the playlist fetch effect.
* `app/api/auth/[...nextauth]/route.ts` — the `jwt` callback: expiry test
  and token refresh.

React `useState` setters become explicit record updates on a component-state
record; each handler is a pure function from the state (and the outcome of
any awaited network call) to the new state together with the list of
observable effects (REST requests, SDK calls, `signOut`) it issues, in issue
order.  Asynchronous responses are passed in as arguments, so a trace of
handler applications models an interleaving of callbacks.
-/

namespace VSpot

/-- A Spotify track as projected by the client (`types/spotify.d.ts`). -/
structure Track where
  id : String
  name : String
  uri : String
deriving DecidableEq, Repr

/-- One item of the `GET /playlists/:id/tracks` response; `track` is `none`
for a null/undefined track (e.g. a local file). -/
structure PlaylistItem where
  track : Option Track
deriving DecidableEq, Repr

/-- A playlist as projected from `GET /me/playlists`. -/
structure Playlist where
  id : String
  name : String
deriving DecidableEq, Repr

/-- Outcome of one awaited Axios call: success, or an error carrying the
HTTP response status (`none` when there was no response) and a message. -/
inductive CallResult where
  | ok
  | err (status : Option Nat) (msg : String)
deriving DecidableEq, Repr

/-- The observable effects a handler issues, in issue order. -/
inductive Action where
  | restGetPlaylists
  | restGetPlaylistTracks (playlistId : String)
  | restTransferPlayback (deviceId : String)
  | restPlayTrack (deviceId : String) (trackUri : String)
  | sdkConnect
  | sdkDisconnect
  | sdkTogglePlay
  | sdkNextTrack
  | sdkPreviousTrack
  | signOutAct
deriving DecidableEq, Repr

/-- Whether an action is a REST (network) request. -/
def Action.isRest : Action → Bool
  | .restGetPlaylists => true
  | .restGetPlaylistTracks _ => true
  | .restTransferPlayback _ => true
  | .restPlayTrack _ _ => true
  | _ => false

/-- The state of the `SpotifyPlayer` component: its `useState` hooks, the
`playerInitialized` ref, and the access token visible through
`session`/`accessTokenRef`. -/
structure SPState where
  player : Option Unit
  deviceId : Option String
  isPaused : Bool
  currentTrack : Option Track
  playbackError : Option String
  tracks : List Track
  isLoadingTracks : Bool
  playerLoading : Bool
  playerInitialized : Bool
  accessToken : Option String
deriving DecidableEq, Repr

/-- The component's initial state (the `useState` initial values). -/
def initialSPState : SPState :=
  { player := none, deviceId := none, isPaused := true, currentTrack := none,
    playbackError := none, tracks := [], isLoadingTracks := false,
    playerLoading := true, playerInitialized := false, accessToken := none }

/-- The sticky premium-restriction error string of `SpotifyPlayer.tsx`. -/
def premiumMsg : String := "Spotify Premium required for playback."

/-- A `player_state_changed` snapshot: paused flag, current track, and the
`disallows.playing_restrictions.reason` field (`none` when absent). -/
structure Snapshot where
  paused : Bool
  current_track : Track
  restrictionReason : Option String
deriving DecidableEq, Repr

/-- The `ready` listener: binds the device id, stores the player handle,
ends loading and sets the `playerInitialized` ref. -/
def onReady (s : SPState) (device_id : String) : SPState :=
  { s with
    deviceId := some device_id, player := some (),
    playerLoading := false, playerInitialized := true }

/-- The `not_ready` listener: clears the device id and reports the device
offline.  The player handle itself is left in place. -/
def onNotReady (s : SPState) (_device_id : String) : SPState :=
  { s with
    deviceId := none, playerLoading := false,
    playbackError :=
      some "Spotify device is offline or unavailable. Ensure Spotify is running." }

/-- The `player_state_changed` listener.  `capturedError` is the value of the
`playbackError` state variable captured by the listener's closure when it was
registered: the clearing branch compares against that captured value, not the
current one. -/
def onPlayerStateChanged (capturedError : Option String) (s : SPState)
    (snap : Snapshot) : SPState :=
  { s with
    isPaused := snap.paused,
    currentTrack := some snap.current_track,
    playbackError :=
      if snap.restrictionReason = some "PREMIUM_REQUIRED" then some premiumMsg
      else if capturedError = some premiumMsg then none
      else s.playbackError }

/-- The `authentication_error` listener: records the error, resets the
initialization ref and signs the session out. -/
def onAuthenticationError (s : SPState) (message : String) :
    SPState × List Action :=
  ({ s with
      playbackError :=
        some ("Authentication Error: " ++ message ++ ". Please re-login."),
      playerLoading := false,
      playerInitialized := false },
    [Action.signOutAct])

/-- `initializeSpotifyPlayer` from the SDK-initialization effect: returns
unchanged unless a token is present, `window.Spotify` is loaded and the
`playerInitialized` ref is still false; otherwise starts loading, clears the
error, disconnects an old stored player instance, creates a new instance and
connects it (the handle is stored in state only by the later `ready` event). -/
def initializeSpotifyPlayer (hasWindowSpotify : Bool) (s : SPState) :
    SPState × List Action :=
  if s.accessToken.isNone || !hasWindowSpotify || s.playerInitialized then
    (s, [])
  else
    ({ s with playerLoading := true, playbackError := none, player := none },
      (if s.player.isSome then [Action.sdkDisconnect] else [])
        ++ [Action.sdkConnect])

/-- The synchronous part of `fetchPlaylistTracks`, up to the awaited GET:
with a selected playlist and a token it starts loading, clears the error and
issues the request; otherwise it empties the track list. -/
def fetchPlaylistTracksStart (s : SPState) (selectedPlaylistId : Option String) :
    SPState × List Action :=
  match selectedPlaylistId, s.accessToken with
  | some pid, some _ =>
      ({ s with isLoadingTracks := true, playbackError := none },
        [Action.restGetPlaylistTracks pid])
  | _, _ => ({ s with tracks := [] }, [])

/-- Completion of `fetchPlaylistTracks`: a successful response is stored
unconditionally as `items.map(i => i.track).filter(Boolean)` — there is no
comparison of the response's playlist with the currently selected one; an
error sets the error message and signs out on HTTP 401. -/
def fetchPlaylistTracksComplete (s : SPState)
    (result : Except (Option Nat) (List PlaylistItem)) : SPState × List Action :=
  match result with
  | .ok items =>
      ({ s with
          tracks := (items.map PlaylistItem.track).filterMap id,
          isLoadingTracks := false }, [])
  | .error status =>
      ({ s with
          playbackError := some "Failed to load playlist tracks. Please try again.",
          isLoadingTracks := false },
        if status = some 401 then [Action.signOutAct] else [])

/-- The playback-failure message of `playTrack`. -/
def playFailMsg (m : String) : String := "Failed to play track: " ++ m ++ "."

/-- `playTrack`'s catch branch signs out exactly on HTTP 401. -/
def signOutOn401 (status : Option Nat) : List Action :=
  if status = some 401 then [Action.signOutAct] else []

/-- `playTrack` (the spec's `selectTrack`): guarded on player handle, device
id and token; rejected without any request while the premium error is set;
otherwise the transfer request is awaited first and the play request is
issued only after it succeeded. -/
def playTrack (s : SPState) (trackUri : String)
    (transferResult playResult : CallResult) : SPState × List Action :=
  match s.player, s.deviceId, s.accessToken with
  | some _, some dev, some _ =>
      if s.playbackError = some premiumMsg then (s, [])
      else
        match transferResult with
        | .ok =>
            match playResult with
            | .ok =>
                (s, [Action.restTransferPlayback dev,
                  Action.restPlayTrack dev trackUri])
            | .err st m =>
                ({ s with playbackError := some (playFailMsg m) },
                  [Action.restTransferPlayback dev,
                    Action.restPlayTrack dev trackUri] ++ signOutOn401 st)
        | .err st m =>
            ({ s with playbackError := some (playFailMsg m) },
              [Action.restTransferPlayback dev] ++ signOutOn401 st)
  | _, _, _ =>
      ({ s with playbackError := some "Player not ready or not authenticated." },
        [])

/-- `togglePlayPause`: optional chaining on the player handle. -/
def togglePlayPause (s : SPState) : SPState × List Action :=
  match s.player with
  | some _ => (s, [Action.sdkTogglePlay])
  | none => (s, [])

/-- `skipNext`: optional chaining on the player handle. -/
def skipNext (s : SPState) : SPState × List Action :=
  match s.player with
  | some _ => (s, [Action.sdkNextTrack])
  | none => (s, [])

/-- `skipPrevious`: optional chaining on the player handle. -/
def skipPrevious (s : SPState) : SPState × List Action :=
  match s.player with
  | some _ => (s, [Action.sdkPreviousTrack])
  | none => (s, [])

/-- The next-auth session status seen by the components. -/
inductive AuthStatus where
  | authenticated
  | unauthenticated
  | loading
deriving DecidableEq, Repr

/-- The state of `ClientHomePage` relevant to the playlist fetch. -/
structure HomeState where
  status : AuthStatus
  accessToken : Option String
  sessionError : Option String
  playlists : List Playlist
  selectedPlaylistId : Option String
  apiError : Option String
  isLoadingPlaylists : Bool
deriving DecidableEq, Repr

/-- The synchronous part of `fetchPlaylists` up to the awaited GET. -/
def fetchPlaylistsStart (h : HomeState) : HomeState × List Action :=
  match h.status, h.accessToken with
  | .authenticated, some _ =>
      ({ h with isLoadingPlaylists := true, apiError := none },
        [Action.restGetPlaylists])
  | _, _ => ({ h with playlists := [] }, [])

/-- Completion of `fetchPlaylists`: stores the playlists, or sets the error
and, on HTTP 401, signs out (with a session-expired message when the session
carries the refresh error). -/
def fetchPlaylistsComplete (h : HomeState)
    (result : Except (Option Nat) (List Playlist)) : HomeState × List Action :=
  match result with
  | .ok ps => ({ h with playlists := ps, isLoadingPlaylists := false }, [])
  | .error status =>
      if status = some 401 then
        if h.sessionError = some "RefreshAccessTokenError" then
          ({ h with
              apiError := some "Your session has expired. Please log in again.",
              isLoadingPlaylists := false }, [Action.signOutAct])
        else
          ({ h with
              apiError := some "Failed to load playlists. Please try again.",
              isLoadingPlaylists := false }, [Action.signOutAct])
      else
        ({ h with
            apiError := some "Failed to load playlists. Please try again.",
            isLoadingPlaylists := false }, [])

/-- The JWT held by next-auth, as typed in `route.ts`. -/
structure JWTToken where
  accessToken : Option String
  refreshToken : Option String
  expiresAt : Option Nat
  error : Option String
deriving DecidableEq, Repr

/-- The provider `account` present only at initial sign-in. -/
structure AccountInfo where
  access_token : String
  refresh_token : Option String
  expires_at : Nat
deriving DecidableEq, Repr

/-- Body of a successful refresh response from the token endpoint. -/
structure RefreshSuccess where
  access_token : String
  expires_in : Nat
  refresh_token : Option String
deriving DecidableEq, Repr

/-- The jwt callback's freshness test:
`token.expiresAt && Date.now() < token.expiresAt * 1000` (`expiresAt` is in
seconds; `0` and absence are both falsy). -/
def tokenNotExpired (expiresAt : Option Nat) (nowMs : Nat) : Bool :=
  match expiresAt with
  | some e => decide (e ≠ 0) && decide (nowMs < e * 1000)
  | none => false

/-- The `jwt` callback of `route.ts`.  `refreshOutcome` is the outcome of the
single `fetch` to the token endpoint (`Except.error` covers both a network
failure and a non-ok response, which is thrown and caught).  The second
component counts the refresh attempts the invocation made. -/
def jwtCallback (token : JWTToken) (account : Option AccountInfo) (nowMs : Nat)
    (refreshOutcome : Except Unit RefreshSuccess) : JWTToken × Nat :=
  match account with
  | some a =>
      ({ accessToken := some a.access_token, refreshToken := a.refresh_token,
         expiresAt := some a.expires_at, error := none }, 0)
  | none =>
      if tokenNotExpired token.expiresAt nowMs then (token, 0)
      else
        match refreshOutcome with
        | .ok r =>
            ({ token with
                accessToken := some r.access_token,
                expiresAt := some (nowMs / 1000 + r.expires_in),
                refreshToken := r.refresh_token.orElse (fun _ => token.refreshToken) },
              1)
        | .error _ => ({ token with error := some "RefreshAccessTokenError" }, 1)

/-! Concrete states used by the closed evaluations below. -/

/-- A concrete track of playlist P. -/
def trackP : Track := { id := "p1", name := "P Song", uri := "spotify:track:p1" }

/-- A concrete track of playlist Q. -/
def trackQ : Track := { id := "q1", name := "Q Song", uri := "spotify:track:q1" }

/-- An authenticated component state before any SDK event. -/
def authedState : SPState := { initialSPState with accessToken := some "tok" }

/-- Trace step: the fetch for playlist P has been issued. -/
def afterFetchPStart : SPState :=
  (fetchPlaylistTracksStart authedState (some "P")).1

/-- Trace step: the selection moved to playlist Q and its fetch was issued
while P's response is still in flight. -/
def afterFetchQStart : SPState :=
  (fetchPlaylistTracksStart afterFetchPStart (some "Q")).1

/-- Trace step: Q's response arrived and was applied. -/
def afterQResponse : SPState :=
  (fetchPlaylistTracksComplete afterFetchQStart
    (Except.ok [{ track := some trackQ }])).1

/-- Trace step: the late response for the deselected playlist P arrives. -/
def afterLatePResponse : SPState :=
  (fetchPlaylistTracksComplete afterQResponse
    (Except.ok [{ track := some trackP }])).1

/-- C1: counter-evaluation.  `fetchPlaylistTracks` stores a response with no
comparison against the currently selected playlist: after the selection moved
to Q and Q's tracks were displayed, the late response for the deselected
playlist P overwrites the displayed track list with P's tracks. -/
theorem fetchTracks_stale_response_applied :
    afterQResponse.tracks = [trackQ] ∧
    afterLatePResponse.tracks = [trackP] ∧ trackP ≠ trackQ := by
  decide

/-- C9: a successful playlist-track fetch stores exactly the response items
projected to their `track` field with the null ones dropped, so the stored
list holds only non-null tracks: membership is equivalent to being the
`track` of some response item. -/
theorem stored_tracks_only_non_null :
    ∀ (s : SPState) (items : List PlaylistItem),
      (fetchPlaylistTracksComplete s (Except.ok items)).1.tracks =
        items.filterMap PlaylistItem.track ∧
      ∀ t : Track,
        t ∈ (fetchPlaylistTracksComplete s (Except.ok items)).1.tracks ↔
          ∃ it ∈ items, it.track = some t := by
  intro s items
  constructor
  · simp [fetchPlaylistTracksComplete, List.filterMap_map]
  · intro t
    simp [fetchPlaylistTracksComplete, List.mem_filterMap]

/-- C6: the jwt callback's freshness check is true iff the current time is
strictly before the expiry timestamp; at exactly the expiry it is false and
the callback invocation makes one refresh attempt. -/
theorem tokenNotExpired_iff_now_lt_expiry :
    ∀ (e nowMs : Nat) (t : JWTToken) (ro : Except Unit RefreshSuccess),
      (tokenNotExpired (some e) nowMs = true ↔ nowMs < e * 1000) ∧
      tokenNotExpired (some e) (e * 1000) = false ∧
      (jwtCallback { t with expiresAt := some e } none (e * 1000) ro).2 = 1 := by
  intro e nowMs t ro
  have hfalse : tokenNotExpired (some e) (e * 1000) = false := by
    simp [tokenNotExpired]
  refine ⟨?_, hfalse, ?_⟩
  · simp only [tokenNotExpired, Bool.and_eq_true, decide_eq_true_eq]
    omega
  · cases ro <;> simp [jwtCallback, hfalse]

/-- C10: a successful refresh whose response carries no new refresh token
keeps the previously stored refresh token unchanged while replacing the
access token and the expiry with the refreshed values. -/
theorem refresh_without_new_refresh_token_retains_old :
    ∀ (t : JWTToken) (nowMs : Nat) (r : RefreshSuccess),
      tokenNotExpired t.expiresAt nowMs = false →
      (jwtCallback t none nowMs (Except.ok { r with refresh_token := none })).1 =
        { t with
            accessToken := some r.access_token,
            expiresAt := some (nowMs / 1000 + r.expires_in),
            refreshToken := t.refreshToken } := by
  intro t nowMs r h
  simp [jwtCallback, h, Option.orElse]

/-- A concrete expired token for the jwt-callback evaluations. -/
def staleToken : JWTToken :=
  { accessToken := some "old-access", refreshToken := some "old-refresh",
    expiresAt := some 100, error := none }

/-- A concrete refresh response carrying no new refresh token. -/
def sampleRefresh : RefreshSuccess :=
  { access_token := "new-access", expires_in := 3600, refresh_token := none }

/-- C10, witness: the theorem applied at the concrete expired token and
refresh response. -/
theorem refresh_without_new_refresh_token_retains_old_witness :
    (jwtCallback staleToken none 200000
        (Except.ok { sampleRefresh with refresh_token := none })).1 =
      { staleToken with
          accessToken := some sampleRefresh.access_token,
          expiresAt := some (200000 / 1000 + sampleRefresh.expires_in),
          refreshToken := staleToken.refreshToken } :=
  refresh_without_new_refresh_token_retains_old staleToken 200000 sampleRefresh
    (by decide)

/-- Trace step: the state after the first connect request was issued and
while the `ready` event has not yet fired. -/
def afterFirstConnect : SPState := (initializeSpotifyPlayer true authedState).1

/-- C2: counterexample.  While the first connect attempt is in flight (the
`ready` event has not fired, so the `playerInitialized` ref is still false),
a second `initializeSpotifyPlayer` call is not a no-op: it creates and
connects a second player instance, with no disconnect in between. -/
theorem initialize_second_connect_during_connecting :
    (initializeSpotifyPlayer true authedState).2 = [Action.sdkConnect] ∧
    afterFirstConnect.playerInitialized = false ∧
    (initializeSpotifyPlayer true afterFirstConnect).2 = [Action.sdkConnect] := by
  decide

/-- C2, amended: the initialization guard is set only by the `ready` event;
once the ref is true, a further connect request is a no-op (no state change
and no SDK call). -/
theorem initialize_noop_after_ready :
    ∀ (s s2 : SPState) (b : Bool) (d : String),
      (onReady s2 d).playerInitialized = true ∧
      initializeSpotifyPlayer b { s with playerInitialized := true } =
        ({ s with playerInitialized := true }, []) := by
  intro s s2 b d
  exact ⟨rfl, by simp [initializeSpotifyPlayer]⟩

/-- C7: the `authentication_error` listener signs the session out and sets a
re-login prompt, and with the session gone neither the playlist-track fetch
nor the playlist fetch issues a request. -/
theorem auth_error_forces_signout_and_no_fetch :
    ∀ (s s2 : SPState) (m : String) (sel : Option String) (h : HomeState),
      (onAuthenticationError s m).2 = [Action.signOutAct] ∧
      (onAuthenticationError s m).1.playbackError =
        some ("Authentication Error: " ++ m ++ ". Please re-login.") ∧
      (fetchPlaylistTracksStart { s2 with accessToken := none } sel).2 = [] ∧
      (fetchPlaylistsStart { h with status := AuthStatus.unauthenticated }).2 = [] := by
  intro s s2 m sel h
  refine ⟨rfl, rfl, ?_, ?_⟩
  · cases sel <;> simp [fetchPlaylistTracksStart]
  · simp [fetchPlaylistsStart]

/-- Trace step: the device reported ready with id `device-1`. -/
def readyState : SPState := onReady authedState "device-1"

/-- Trace step: the device then went offline (`not_ready`): the device id is
cleared but the player handle is retained. -/
def offlineState : SPState := onNotReady readyState "device-1"

/-- C8: counterexample.  After the device has gone Offline (no device is
Ready), the player handle is still stored, so `togglePlayPause` still
invokes the native control instead of being a no-op. -/
theorem transport_controls_called_while_offline :
    offlineState.deviceId = none ∧
    offlineState.player.isSome = true ∧
    (togglePlayPause offlineState).2 = [Action.sdkTogglePlay] := by
  decide

/-- C8, amended: the three transport controls delegate to the SDK handle
only — no REST request is ever issued and the component state is unchanged —
and each is a no-op exactly when no player handle is stored (the device never
became Ready, or the player was torn down). -/
theorem transport_controls_sdk_only_noop_without_player :
    ∀ s : SPState,
      (togglePlayPause s).1 = s ∧ (skipNext s).1 = s ∧ (skipPrevious s).1 = s ∧
      ((togglePlayPause s).2.all (fun a => !a.isRest)) = true ∧
      ((skipNext s).2.all (fun a => !a.isRest)) = true ∧
      ((skipPrevious s).2.all (fun a => !a.isRest)) = true ∧
      (togglePlayPause { s with player := none }).2 = [] ∧
      (skipNext { s with player := none }).2 = [] ∧
      (skipPrevious { s with player := none }).2 = [] := by
  intro s
  rcases s with ⟨pl, d, ip, ct, pe, tk, lt, lp, pi, tok⟩
  cases pl <;> simp [togglePlayPause, skipNext, skipPrevious, Action.isRest]

/-- A snapshot reporting the PREMIUM_REQUIRED restriction. -/
def premiumSnap : Snapshot :=
  { paused := false, current_track := trackP,
    restrictionReason := some "PREMIUM_REQUIRED" }

/-- Trace step: the premium-restricted snapshot arrived in the Ready state
(the listener's captured error value is the initial `null`). -/
def afterPremium : SPState := onPlayerStateChanged none readyState premiumSnap

/-- Trace step: the user then selects a playlist, starting a track fetch. -/
def afterPremiumFetchStart : SPState :=
  (fetchPlaylistTracksStart afterPremium (some "playlistQ")).1

/-- C3: counterexample.  After the PREMIUM_REQUIRED snapshot, `playTrack` is
rejected with no request; but merely starting a playlist-track fetch clears
the sticky error, and the next `playTrack` issues the transfer and play
requests although no snapshot without the restriction was ever observed. -/
theorem premium_rejection_cleared_by_fetch :
    afterPremium.playbackError = some premiumMsg ∧
    (playTrack afterPremium "spotify:track:p1" CallResult.ok CallResult.ok).2 = [] ∧
    (playTrack afterPremiumFetchStart "spotify:track:p1"
        CallResult.ok CallResult.ok).2 =
      [Action.restTransferPlayback "device-1",
        Action.restPlayTrack "device-1" "spotify:track:p1"] := by
  decide

/-- C3, amended: a PREMIUM_REQUIRED snapshot sets the sticky premium error,
and while that error value is in place every `playTrack` invocation issues no
request; a snapshot without the restriction clears the error when the error
value captured by the listener's closure is itself the premium message; but
the error — and with it the rejection — is also cleared by starting a
playlist-track fetch, without any restriction-free snapshot being observed. -/
theorem premium_restriction_behaviour :
    ∀ (captured : Option String) (s : SPState) (snap : Snapshot) (uri : String)
      (tr pr : CallResult) (pid tok : String),
      (onPlayerStateChanged captured s
          { snap with restrictionReason := some "PREMIUM_REQUIRED" }).playbackError =
        some premiumMsg ∧
      (playTrack { s with playbackError := some premiumMsg } uri tr pr).2 = [] ∧
      (onPlayerStateChanged (some premiumMsg) s
          { snap with restrictionReason := none }).playbackError = none ∧
      (fetchPlaylistTracksStart { s with accessToken := some tok }
          (some pid)).1.playbackError = none := by
  intro captured s snap uri tr pr pid tok
  refine ⟨?_, ?_, ?_, ?_⟩
  · simp [onPlayerStateChanged]
  · rcases s with ⟨pl, d, ip, ct, pe, tk, lt, lp, pi, tk0⟩
    cases pl <;> cases d <;> cases tk0 <;> simp [playTrack]
  · simp [onPlayerStateChanged]
  · simp [fetchPlaylistTracksStart]

/-- No play request hides in the 401-sign-out tail of `playTrack`'s catch. -/
theorem restPlay_not_mem_signOutOn401 :
    ∀ (st : Option Nat) (dev u : String),
      Action.restPlayTrack dev u ∉ signOutOn401 st := by
  intro st dev u
  unfold signOutOn401
  split <;> simp

/-- C4: `playTrack` issues the play request only when the transfer request of
the same invocation succeeded, and then the transfer request is the first
action issued (transfer strictly before play). -/
theorem playTrack_play_only_after_transfer_ok :
    ∀ (s : SPState) (uri : String) (tr pr : CallResult) (dev u : String),
      Action.restPlayTrack dev u ∈ (playTrack s uri tr pr).2 →
      tr = CallResult.ok ∧
      (playTrack s uri tr pr).2.head? = some (Action.restTransferPlayback dev) := by
  intro s uri tr pr dev u h
  rcases s with ⟨pl, d, ip, ct, pe, tk, lt, lp, pi, tk0⟩
  cases pl <;> cases d <;> cases tk0 <;>
    simp only [playTrack] at h ⊢ <;>
    try simp at h
  split_ifs at h ⊢ with hpe
  · simp at h
  · cases tr <;> cases pr <;>
      simp_all [restPlay_not_mem_signOutOn401, List.mem_append]

/-- C4, witness: at a concrete Ready state with both calls succeeding, the
play request is in the issued list and the transfer request is issued
first. -/
theorem playTrack_play_only_after_transfer_ok_witness :
    CallResult.ok = CallResult.ok ∧
    (playTrack readyState "spotify:track:p1" CallResult.ok CallResult.ok).2.head? =
      some (Action.restTransferPlayback "device-1") :=
  playTrack_play_only_after_transfer_ok readyState "spotify:track:p1"
    CallResult.ok CallResult.ok "device-1" "spotify:track:p1" (by decide)

/-- C5: counterexample.  A failed refresh returns the old token with only the
error flag added: the stored access and refresh tokens are retained, not
discarded. -/
theorem refresh_failure_retains_credential_cex :
    (jwtCallback staleToken none 200000 (Except.error ())).1.accessToken =
      some "old-access" ∧
    (jwtCallback staleToken none 200000 (Except.error ())).1.refreshToken =
      some "old-refresh" ∧
    (jwtCallback staleToken none 200000 (Except.error ())).1.error =
      some "RefreshAccessTokenError" := by
  decide

/-- A concrete authenticated home state whose session carries the refresh
error. -/
def refreshErrorHome : HomeState :=
  { status := AuthStatus.authenticated, accessToken := some "old-access",
    sessionError := some "RefreshAccessTokenError", playlists := [],
    selectedPlaylistId := none, apiError := none, isLoadingPlaylists := false }

/-- C5, amended: a failed refresh signals the irrecoverable
`RefreshAccessTokenError` with exactly one refresh attempt in the invocation,
but retains (rather than discards) the stored credential fields; the
credential is discarded only later, when a catalog call fails with 401 and
the caller signs the session out. -/
theorem refresh_failure_marks_error_keeps_credential :
    ∀ (t : JWTToken) (nowMs : Nat) (h : HomeState),
      tokenNotExpired t.expiresAt nowMs = false →
      h.sessionError = some "RefreshAccessTokenError" →
      (jwtCallback t none nowMs (Except.error ())).1 =
        { t with error := some "RefreshAccessTokenError" } ∧
      (jwtCallback t none nowMs (Except.error ())).2 = 1 ∧
      (fetchPlaylistsComplete h (Except.error (some 401))).2 =
        [Action.signOutAct] := by
  intro t nowMs h hexp herr
  refine ⟨?_, ?_, ?_⟩
  · simp [jwtCallback, hexp]
  · simp [jwtCallback, hexp]
  · simp [fetchPlaylistsComplete, herr]

/-- C5, witness: the theorem applied at the concrete expired token and a
home state carrying the refresh error. -/
theorem refresh_failure_marks_error_keeps_credential_witness :
    (jwtCallback staleToken none 200000 (Except.error ())).1 =
      { staleToken with error := some "RefreshAccessTokenError" } ∧
    (jwtCallback staleToken none 200000 (Except.error ())).2 = 1 ∧
    (fetchPlaylistsComplete refreshErrorHome (Except.error (some 401))).2 =
      [Action.signOutAct] :=
  refresh_failure_marks_error_keeps_credential staleToken 200000 refreshErrorHome
    (by decide) (by decide)

end VSpot
